import Mathlib

/-!
Shallow embedding of the MT4ZMQ winsock messaging core
(`src/dll_source/mt4zmq_winsock_fixed.cpp`) and verification of its
specification claims.

Bytes are modelled as `Nat`, byte strings as `List Nat`, C++ `std::string`
text as `List Char`.  External transport effects (WSAStartup, socket, bind,
listen, connect, accept, send, select, recv) are modelled by environment
records supplying their outcomes; everything computed by the DLL itself is
translated directly from the source.
-/

/-- The frame separator byte (`'\0'` in the source). -/
def sepByte : Nat := 0

/-- Wire encoding built by `zmq_send_message` line 237:
`fullMsg = topicStr + '\0' + msgStr`. -/
def encodeFrame (topic payload : List Nat) : List Nat :=
  topic ++ sepByte :: payload

/-- Index of the first occurrence of an element, mirroring
`std::string::find` (`npos` becomes `none`).  Used for `data.find('\0')`
in the decoder and `hostPort.find(':')` in the address parser. -/
def findFirst {α : Type} [DecidableEq α] (x : α) : List α → Option Nat
  | [] => none
  | y :: rest => if y = x then some 0 else (findFirst x rest).map (· + 1)

/-- Frame decoding performed by `zmq_recv_message` lines 366-374:
find the first NUL; fail when there is none, otherwise topic is the prefix
before it and payload everything after it. -/
def decodeFrame (data : List Nat) : Option (List Nat × List Nat) :=
  match findFirst sepByte data with
  | none => none
  | some i => some (data.take i, data.drop (i + 1))

/-- `isspace` characters skipped by `std::stoi` (via `strtol`). -/
def isSpaceCh (c : Char) : Bool :=
  c = ' ' || c = '\t' || c = '\n' || c = Char.ofNat 11 || c = Char.ofNat 12 || c = '\r'

/-- Accumulate a decimal digit list into a number. -/
def digitsToNat (ds : List Char) : Nat :=
  ds.foldl (fun acc c => acc * 10 + (c.toNat - 48)) 0

/-- `std::stoi` on the port substring (line 96): skip leading whitespace,
optional sign, then a non-empty run of decimal digits (trailing characters
ignored); `none` models the exception caught at line 97 (no conversion or
value outside the `int` range). -/
def stoi (s : List Char) : Option Int :=
  let s1 := s.dropWhile isSpaceCh
  let signAndRest : Bool × List Char :=
    match s1 with
    | '-' :: r => (true, r)
    | '+' :: r => (false, r)
    | _ => (false, s1)
  let ds := signAndRest.2.takeWhile Char.isDigit
  if ds.isEmpty then none
  else
    let v : Int := if signAndRest.1 then -(digitsToNat ds : Int) else (digitsToNat ds : Int)
    if v < -2147483648 ∨ 2147483647 < v then none else some v

/-- `ParseAddress` (lines 79-103): check the `tcp://` scheme, split host
and port at the first colon, map `*` to `0.0.0.0`, convert the port with
`stoi`.  `Except.error` carries the message passed to `SetLastError`. -/
def ParseAddress (addr : List Char) : Except (List Char) (List Char × Int) :=
  if addr.take 6 ≠ "tcp://".toList then
    .error "Invalid address format (must be tcp://...)".toList
  else
    match findFirst ':' (addr.drop 6) with
    | none => .error "Invalid address format (missing port)".toList
    | some colonPos =>
      match stoi ((addr.drop 6).drop (colonPos + 1)) with
      | none => .error "Invalid port number".toList
      | some port =>
        .ok (if (addr.drop 6).take colonPos = ['*'] then "0.0.0.0".toList
             else (addr.drop 6).take colonPos, port)

/-- `true` exactly when `ParseAddress` succeeds. -/
def parseOk (addr : List Char) : Bool :=
  match ParseAddress addr with
  | .ok _ => true
  | .error _ => false

-- Sanity checks on concrete inputs.
example : decodeFrame (encodeFrame [116] [100, 97]) = some ([116], [100, 97]) := by decide
example : ParseAddress "tcp://*:5556".toList = .ok ("0.0.0.0".toList, 5556) := by rfl
example : parseOk "invalid://address".toList = false := by decide
example : parseOk "tcp://localhost:0".toList = true := by decide

/-- The `ZMQSocket` wrapper (lines 18-42): socket type tag, the address
string, the bound flag, and for publishers the ordered accepted-client
list.  `SOCKET` descriptors are modelled as `Nat` identifiers; the raw
listening/connected descriptor itself carries no modelled state. -/
structure ZMQSocket where
  type : List Char
  address : List Char
  is_bound : Bool
  clients : List Nat
deriving DecidableEq

/-- The process-wide globals (lines 44-49): `g_initialized`,
`g_next_handle`, `g_sockets` (as an association list keyed by handle) and
`g_last_error`. -/
structure GlobalState where
  initialized : Bool
  next_handle : Int
  sockets : List (Int × ZMQSocket)
  last_error : List Char
deriving DecidableEq

/-- `g_sockets.find(handle)` on the association-list model. -/
def mapFind (m : List (Int × ZMQSocket)) (k : Int) : Option ZMQSocket :=
  match m with
  | [] => none
  | (k', v) :: rest => if k = k' then some v else mapFind rest k

/-- `g_sockets[handle] = sock` (insert-or-assign). -/
def mapInsert (m : List (Int × ZMQSocket)) (k : Int) (v : ZMQSocket) :
    List (Int × ZMQSocket) :=
  if (mapFind m k).isSome then m.map (fun kv => if kv.1 = k then (k, v) else kv)
  else m ++ [(k, v)]

/-- In-place update of the socket object a map entry points at (the C++
map stores a pointer, so mutating the socket updates the mapped value). -/
def mapUpdate (m : List (Int × ZMQSocket)) (k : Int) (v : ZMQSocket) :
    List (Int × ZMQSocket) :=
  m.map (fun kv => if kv.1 = k then (k, v) else kv)

/-- `g_sockets.erase(it)`. -/
def mapErase (m : List (Int × ZMQSocket)) (k : Int) : List (Int × ZMQSocket) :=
  m.filter (fun kv => kv.1 ≠ k)

/-- `SetLastError` (lines 64-66): `strncpy_s` with `_TRUNCATE` into a
256-byte buffer keeps at most 255 characters. -/
def setLastErr (st : GlobalState) (e : List Char) : GlobalState :=
  { st with last_error := e.take 255 }

/-- The state of the globals when the DLL is loaded. -/
def initialState : GlobalState :=
  { initialized := false, next_handle := 1, sockets := [], last_error := [] }

/-- Outcomes the environment assigns to the external winsock calls made
during publisher/subscriber creation. -/
structure CreateEnv where
  wsaOk : Bool
  socketOk : Bool
  addrOk : Bool
  bindOk : Bool
  listenOk : Bool
  connectOk : Bool
deriving DecidableEq

/-- `zmq_init` (lines 116-129): idempotent; on first call `WSAStartup`
may fail (environment flag `wsaOk`), otherwise mark initialized. -/
def zmq_init (st : GlobalState) (wsaOk : Bool) : Int × GlobalState :=
  if st.initialized then (0, st)
  else if wsaOk then (0, { st with initialized := true })
  else (-1, setLastErr st "WSAStartup failed".toList)

/-- Body of `zmq_create_publisher` after the implicit-init check
(lines 137-196): parse the address, create/bind/listen the socket (each
external step may fail per the environment), then register the wrapper
under the next handle. -/
def createPublisherBody (st : GlobalState) (addr : List Char) (env : CreateEnv) :
    Int × GlobalState :=
  match ParseAddress addr with
  | .error e => (-1, setLastErr st e)
  | .ok _hp =>
    if env.socketOk = false then (-1, setLastErr st "Failed to create socket".toList)
    else if env.addrOk = false then (-1, setLastErr st "Invalid IP address".toList)
    else if env.bindOk = false then (-1, setLastErr st "Failed to bind socket".toList)
    else if env.listenOk = false then (-1, setLastErr st "Failed to listen on socket".toList)
    else
      let sock : ZMQSocket :=
        { type := "PUB".toList, address := addr, is_bound := true, clients := [] }
      let h := st.next_handle
      (h, { st with next_handle := h + 1, sockets := mapInsert st.sockets h sock })

/-- `zmq_create_publisher` (lines 132-197): implicit initialization when
needed, then the body. -/
def zmq_create_publisher (st : GlobalState) (addr : List Char) (env : CreateEnv) :
    Int × GlobalState :=
  let initStep : Int × GlobalState :=
    if st.initialized then (0, st) else zmq_init st env.wsaOk
  if initStep.1 ≠ 0 then (-1, initStep.2)
  else createPublisherBody initStep.2 addr env

/-- Body of `zmq_create_subscriber` after the implicit-init check
(lines 267-318): parse the address, replace `localhost` by `127.0.0.1`,
create/connect the socket, then register the wrapper. -/
def createSubscriberBody (st : GlobalState) (addr : List Char) (env : CreateEnv) :
    Int × GlobalState :=
  match ParseAddress addr with
  | .error e => (-1, setLastErr st e)
  | .ok _hp =>
    if env.socketOk = false then (-1, setLastErr st "Failed to create socket".toList)
    else if env.addrOk = false then (-1, setLastErr st "Invalid IP address".toList)
    else if env.connectOk = false then (-1, setLastErr st "Failed to connect".toList)
    else
      let sock : ZMQSocket :=
        { type := "SUB".toList, address := addr, is_bound := false, clients := [] }
      let h := st.next_handle
      (h, { st with next_handle := h + 1, sockets := mapInsert st.sockets h sock })

/-- `zmq_create_subscriber` (lines 262-319). -/
def zmq_create_subscriber (st : GlobalState) (addr : List Char) (env : CreateEnv) :
    Int × GlobalState :=
  let initStep : Int × GlobalState :=
    if st.initialized then (0, st) else zmq_init st env.wsaOk
  if initStep.1 ≠ 0 then (-1, initStep.2)
  else createSubscriberBody initStep.2 addr env

/-- `zmq_close` (lines 384-396): unknown handle returns `-1` (without
touching `g_last_error`), otherwise the socket is deleted and its entry
erased. -/
def zmq_close (st : GlobalState) (handle : Int) : Int × GlobalState :=
  if (mapFind st.sockets handle).isSome then
    (0, { st with sockets := mapErase st.sockets handle })
  else (-1, st)

/-- `zmq_term` (lines 399-415): when initialized, delete every socket,
clear the map and drop the initialized flag; `g_next_handle` is left
untouched. -/
def zmq_term (st : GlobalState) : GlobalState :=
  if st.initialized then { st with sockets := [], initialized := false } else st

/-- Outcome of one non-blocking `send` to one client (lines 242-248):
success, `WSAEWOULDBLOCK` (tolerated silently), or any other error
(the client is marked disconnected). -/
inductive WriteOutcome
  | ok
  | wouldBlock
  | hardError
deriving DecidableEq

/-- Environment for one `zmq_send_message` call: the pending inbound
connections the non-blocking accept loop will drain, in arrival order,
and the outcome of the write to each client descriptor. -/
structure SendEnv where
  pending : List Nat
  writeOutcome : Nat → WriteOutcome

/-- Observable result of `zmq_send_message`: return code, the sequence of
write attempts `(client, bytes)` issued in order, and the new globals. -/
structure SendResult where
  ret : Int
  writes : List (Nat × List Nat)
  state : GlobalState

/-- `AcceptConnections` (lines 200-216): drain pending connections, set
each non-blocking and push it onto the back of the client list. -/
def AcceptConnections (sock : ZMQSocket) (pending : List Nat) : ZMQSocket :=
  { sock with clients := sock.clients ++ pending }

/-- One `clients.erase(remove(...))` pass for one disconnected value
(lines 254-255): removes every occurrence equal to it. -/
def eraseClient (cl : List Nat) (x : Nat) : List Nat :=
  cl.filter (fun c => c ≠ x)

/-- The removal loop of lines 252-256. -/
def removeDisconnected (cl disconnected : List Nat) : List Nat :=
  disconnected.foldl eraseClient cl

/-- `zmq_send_message` (lines 219-258): look up the handle, accept pending
connections, frame the message, attempt one write per client in list
order, then close and remove the clients whose write hard-failed; always
returns 0 once the handle was found. -/
def zmq_send_message (st : GlobalState) (handle : Int)
    (topic payload : List Nat) (env : SendEnv) : SendResult :=
  match mapFind st.sockets handle with
  | none => ⟨-1, [], setLastErr st "Invalid handle".toList⟩
  | some sock0 =>
    let sock1 := AcceptConnections sock0 env.pending
    let fullMsg := encodeFrame topic payload
    let writes := sock1.clients.map (fun c => (c, fullMsg))
    let disconnected :=
      sock1.clients.filter (fun c => env.writeOutcome c = WriteOutcome.hardError)
    let sock2 := { sock1 with clients := removeDisconnected sock1.clients disconnected }
    ⟨0, writes, { st with sockets := mapUpdate st.sockets handle sock2 }⟩

/-- Environment for one `zmq_recv_message` call: the value returned by
`select` (`≤ 0` means timeout or select error) and the outcome of the
single `recv` (`none` = `SOCKET_ERROR`, `some bytes` = that many bytes
read, the empty list being an orderly shutdown). -/
structure RecvEnv where
  selectResult : Int
  recvOutcome : Option (List Nat)
deriving DecidableEq

/-- Observable result of `zmq_recv_message`: return code, the decoded
(topic, payload) written to the caller's buffers on success, and the new
globals. -/
structure RecvResult where
  ret : Int
  msg : Option (List Nat × List Nat)
  state : GlobalState
deriving DecidableEq

/-- `zmq_recv_message` (lines 329-381): look up the handle, reject
non-subscriber sockets, wait via `select` up to the timeout, read once
into the 4096-byte buffer, and decode the frame at the first NUL.  The
timeout branch (line 355-357), the failed/empty read (line 362-364) and
the missing separator (line 369-371) all return bare `-1` with the
globals untouched. -/
def zmq_recv_message (st : GlobalState) (handle : Int) (env : RecvEnv) : RecvResult :=
  match mapFind st.sockets handle with
  | none => ⟨-1, none, setLastErr st "Invalid handle".toList⟩
  | some sock =>
    if sock.type ≠ "SUB".toList then
      ⟨-1, none, setLastErr st "Not a subscriber socket".toList⟩
    else if env.selectResult ≤ 0 then ⟨-1, none, st⟩
    else
      match env.recvOutcome with
      | none => ⟨-1, none, st⟩
      | some bs =>
        if bs.length = 0 then ⟨-1, none, st⟩
        else
          match decodeFrame (bs.take 4096) with
          | none => ⟨-1, none, st⟩
          | some tp => ⟨0, some tp, st⟩

/-- One API call, with the environment outcomes of its external steps. -/
inductive Op
  | createPub (addr : List Char) (env : CreateEnv)
  | createSub (addr : List Char) (env : CreateEnv)
  | closeOp (h : Int)
  | termOp
  | initOp (wsaOk : Bool)
  | sendOp (h : Int) (topic payload : List Nat) (env : SendEnv)
  | recvOp (h : Int) (env : RecvEnv)

/-- Execute one call; the second component is the handle produced when the
call was a successful creation. -/
def step (st : GlobalState) : Op → GlobalState × Option Int
  | .createPub addr env =>
    let r := zmq_create_publisher st addr env
    (r.2, if r.1 = -1 then none else some r.1)
  | .createSub addr env =>
    let r := zmq_create_subscriber st addr env
    (r.2, if r.1 = -1 then none else some r.1)
  | .closeOp h => ((zmq_close st h).2, none)
  | .termOp => (zmq_term st, none)
  | .initOp wsaOk => ((zmq_init st wsaOk).2, none)
  | .sendOp h t p env => ((zmq_send_message st h t p env).state, none)
  | .recvOp h env => ((zmq_recv_message st h env).state, none)

/-- Execute a sequence of calls, collecting the handles handed out by
successful creations, in order. -/
def run (st : GlobalState) : List Op → GlobalState × List Int
  | [] => (st, [])
  | op :: ops =>
    let s := step st op
    let r := run s.1 ops
    (r.1, s.2.toList ++ r.2)

/-- The integer sequence `n, n+1, ..., n+k-1`. -/
def handleSeq : Int → Nat → List Int
  | _, 0 => []
  | n, k + 1 => n :: handleSeq (n + 1) k

/-! ## Helper lemmas -/

theorem findFirst_append {α : Type} [DecidableEq α] (x : α) (l r : List α)
    (hl : x ∉ l) : findFirst x (l ++ x :: r) = some l.length := by
  induction l with
  | nil => simp [findFirst]
  | cons y rest ih =>
    simp only [List.mem_cons, not_or] at hl
    have hy : y ≠ x := fun h => hl.1 h.symm
    simp [findFirst, hy, ih hl.2]

theorem findFirst_split {α : Type} [DecidableEq α] (x : α) :
    ∀ (l : List α) (i : Nat), findFirst x l = some i →
      l = l.take i ++ x :: l.drop (i + 1) ∧ x ∉ l.take i := by
  intro l
  induction l with
  | nil => intro i h; simp [findFirst] at h
  | cons y rest ih =>
    intro i h
    by_cases hy : y = x
    · simp [findFirst, hy] at h
      subst h
      simp [hy]
    · simp only [findFirst, if_neg hy, Option.map_eq_some'] at h
      obtain ⟨j, hj, hji⟩ := h
      obtain ⟨h1, h2⟩ := ih j hj
      subst hji
      constructor
      · simpa [List.take_succ_cons, List.drop_succ_cons] using congrArg (y :: ·) h1
      · simp only [List.take_succ_cons, List.mem_cons, not_or]
        exact ⟨fun hc => hy hc.symm, h2⟩

theorem take_append_length {α : Type} (l r : List α) : (l ++ r).take l.length = l := by
  simp

theorem drop_append_length_succ {α : Type} (l r : List α) (x : α) :
    (l ++ x :: r).drop (l.length + 1) = r := by
  induction l with
  | nil => simp
  | cons y rest ih => simp [ih]

/-! ## C1 -/

/-- C1: for every topic and payload without the separator byte, decoding
the publisher's framed wire bytes with the subscriber's decode yields back
exactly the original topic and payload. -/
theorem C1_framing_roundtrip (topic payload : List Nat)
    (ht : sepByte ∉ topic) (_hp : sepByte ∉ payload) :
    decodeFrame (encodeFrame topic payload) = some (topic, payload) := by
  unfold decodeFrame encodeFrame
  rw [findFirst_append sepByte topic payload ht]
  simp [take_append_length, drop_append_length_succ]

/-- Witness for C1 at topic `"tick"` and payload `"123"` (as byte lists). -/
theorem C1_framing_roundtrip_witness :
    sepByte ∉ [116, 105, 99, 107] ∧ sepByte ∉ [49, 50, 51] ∧
    decodeFrame (encodeFrame [116, 105, 99, 107] [49, 50, 51]) =
      some ([116, 105, 99, 107], [49, 50, 51]) :=
  ⟨by decide, by decide,
    C1_framing_roundtrip [116, 105, 99, 107] [49, 50, 51] (by decide) (by decide)⟩

/-! ## C4 -/

theorem scheme_take (rest : List Char) :
    ("tcp://".toList ++ rest).take 6 = "tcp://".toList := rfl

theorem scheme_drop (rest : List Char) :
    ("tcp://".toList ++ rest).drop 6 = rest := rfl

/-- C4 counterexample: the parser performs no range check on the port and
`stoi` ignores trailing non-digits, so port `0`, port `99999` and port
part `"5x"` are all accepted, each contradicting the claimed
success-exactly-when-port-in-[1,65535] contract. -/
theorem C4_counterexample :
    ParseAddress "tcp://localhost:0".toList = .ok ("localhost".toList, 0) ∧
    ParseAddress "tcp://127.0.0.1:99999".toList = .ok ("127.0.0.1".toList, 99999) ∧
    ParseAddress "tcp://h:5x".toList = .ok (['h'], 5) :=
  ⟨rfl, rfl, rfl⟩

/-- C4 (amended): the parser succeeds exactly when the address is
`tcp://` followed by a colon-free host part, a colon, and a port part
accepted by `stoi` (optional whitespace and sign, at least one leading
decimal digit, trailing characters ignored, value inside the machine-int
range); the port value is not checked against [1, 65535]. -/
theorem parse_ok_decomp (addr : List Char) (hp : List Char × Int)
    (h : ParseAddress addr = .ok hp) :
    ∃ host portStr, addr = "tcp://".toList ++ (host ++ ':' :: portStr) ∧
      ':' ∉ host ∧ (stoi portStr).isSome = true := by
  unfold ParseAddress at h
  split at h
  · exact Except.noConfusion h
  · split at h
    · exact Except.noConfusion h
    · split at h
      · exact Except.noConfusion h
      · rename_i hs xo i hf xs v hst
        rw [not_not] at hs
        obtain ⟨h1, h2⟩ := findFirst_split ':' (addr.drop 6) i hf
        refine ⟨(addr.drop 6).take i, (addr.drop 6).drop (i + 1), ?_, h2, ?_⟩
        · conv_lhs => rw [← List.take_append_drop 6 addr]
          rw [hs]
          exact congrArg _ h1
        · rw [hst]; rfl

theorem parse_build (host portStr : List Char) (v : Int)
    (hmem : ':' ∉ host) (hv : stoi portStr = some v) :
    ParseAddress ("tcp://".toList ++ (host ++ ':' :: portStr)) =
      .ok (if host = ['*'] then "0.0.0.0".toList else host, v) := by
  have h2 : ("tcp://".toList ++ (host ++ ':' :: portStr)).take 6 = "tcp://".toList := rfl
  have h3 : ("tcp://".toList ++ (host ++ ':' :: portStr)).drop 6 = host ++ ':' :: portStr := rfl
  simp only [ParseAddress, h2, h3, findFirst_append ':' host portStr hmem,
    drop_append_length_succ, hv, take_append_length, ne_eq, not_true_eq_false,
    if_false, reduceCtorEq, ite_false]

theorem C4_parse_address_characterization (addr : List Char) :
    parseOk addr = true ↔
    ∃ host portStr, addr = "tcp://".toList ++ (host ++ ':' :: portStr) ∧
      ':' ∉ host ∧ (stoi portStr).isSome = true := by
  constructor
  · intro h
    unfold parseOk at h
    cases hP : ParseAddress addr with
    | error e => rw [hP] at h; exact Bool.noConfusion h
    | ok hp => exact parse_ok_decomp addr hp hP
  · rintro ⟨host, portStr, heq, hmem, hstoi⟩
    obtain ⟨v, hv⟩ := Option.isSome_iff_exists.mp hstoi
    unfold parseOk
    rw [heq, parse_build host portStr v hmem hv]

/-! ## C2 -/

/-- C2: on a registered handle `send` returns success whatever the peer
list and the write outcomes are (empty list, blocking writes or hard
errors included); it returns failure exactly when the handle is not
registered. -/
theorem C2_send_success_iff_registered (st : GlobalState) (h : Int)
    (topic payload : List Nat) (env : SendEnv) :
    (zmq_send_message st h topic payload env).ret =
      if (mapFind st.sockets h).isSome then 0 else -1 := by
  unfold zmq_send_message
  cases hf : mapFind st.sockets h <;> simp [hf]

/-! ## C7 -/

/-- C7: `send` on an unregistered handle fails, performs no write, and
leaves the registry mapping (hence every socket object), the initialized
flag and the handle counter unchanged. -/
theorem C7_send_unknown_handle_no_effect (st : GlobalState) (h : Int)
    (topic payload : List Nat) (env : SendEnv)
    (hreg : mapFind st.sockets h = none) :
    (zmq_send_message st h topic payload env).ret = -1 ∧
    (zmq_send_message st h topic payload env).writes = [] ∧
    (zmq_send_message st h topic payload env).state.sockets = st.sockets ∧
    (zmq_send_message st h topic payload env).state.initialized = st.initialized ∧
    (zmq_send_message st h topic payload env).state.next_handle = st.next_handle := by
  unfold zmq_send_message
  rw [hreg]
  exact ⟨rfl, rfl, rfl, rfl, rfl⟩

/-- Witness for C7: handle 5 on the fresh registry. -/
theorem C7_send_unknown_handle_no_effect_witness :
    mapFind initialState.sockets 5 = none ∧
    ((zmq_send_message initialState 5 [1] [2] ⟨[], fun _ => WriteOutcome.ok⟩).ret = -1 ∧
     (zmq_send_message initialState 5 [1] [2] ⟨[], fun _ => WriteOutcome.ok⟩).writes = [] ∧
     (zmq_send_message initialState 5 [1] [2]
        ⟨[], fun _ => WriteOutcome.ok⟩).state.sockets = initialState.sockets ∧
     (zmq_send_message initialState 5 [1] [2]
        ⟨[], fun _ => WriteOutcome.ok⟩).state.initialized = initialState.initialized ∧
     (zmq_send_message initialState 5 [1] [2]
        ⟨[], fun _ => WriteOutcome.ok⟩).state.next_handle = initialState.next_handle) :=
  ⟨rfl, C7_send_unknown_handle_no_effect initialState 5 [1] [2] _ rfl⟩

/-! ## C6 -/

theorem foldl_eraseClient (ds : List Nat) :
    ∀ cl : List Nat, ds.foldl eraseClient cl = cl.filter (fun c => decide (c ∉ ds)) := by
  induction ds with
  | nil => intro cl; simp [eraseClient]
  | cons d ds ih =>
    intro cl
    rw [List.foldl_cons, ih]
    unfold eraseClient
    rw [List.filter_filter]
    have hfun : ∀ c : Nat, (decide (c ∉ ds) && decide (c ≠ d)) = decide (c ∉ d :: ds) := by
      intro c
      by_cases h1 : c = d <;> by_cases h2 : c ∈ ds <;>
        simp [h1, h2, List.mem_cons]
    exact List.filter_congr (fun c _ => hfun c)

theorem removeDisconnected_eq_filter (cl : List Nat) (f : Nat → WriteOutcome) :
    removeDisconnected cl (cl.filter (fun c => decide (f c = WriteOutcome.hardError))) =
      cl.filter (fun c => decide (f c ≠ WriteOutcome.hardError)) := by
  unfold removeDisconnected
  rw [foldl_eraseClient]
  apply List.filter_congr
  intro c hc
  by_cases hfc : f c = WriteOutcome.hardError <;>
    simp [List.mem_filter, hc, hfc]

/-- C6: `send` on a registered handle first appends each drained pending
connection to the end of the peer list, then issues exactly one write of
the encoded frame to every peer in list order, and finally removes
exactly the peers whose write hard-failed (would-block writes are kept);
order and all other peers are preserved, and only this handle's socket is
updated. -/
theorem C6_send_two_phase (st : GlobalState) (h : Int) (sock : ZMQSocket)
    (topic payload : List Nat) (env : SendEnv)
    (hreg : mapFind st.sockets h = some sock) :
    (zmq_send_message st h topic payload env).ret = 0 ∧
    (zmq_send_message st h topic payload env).writes =
      (sock.clients ++ env.pending).map (fun c => (c, encodeFrame topic payload)) ∧
    (zmq_send_message st h topic payload env).state =
      { st with
        sockets :=
          mapUpdate st.sockets h
            ({ sock with
               clients := (sock.clients ++ env.pending).filter
                 (fun c => decide (env.writeOutcome c ≠ WriteOutcome.hardError)) }) } := by
  simp only [zmq_send_message, hreg, AcceptConnections]
  refine ⟨trivial, trivial, ?_⟩
  rw [removeDisconnected_eq_filter (sock.clients ++ env.pending) env.writeOutcome]

/-- A registered publisher with two connected clients, for concrete runs. -/
def pubSock : ZMQSocket :=
  { type := "PUB".toList, address := "tcp://*:5556".toList,
    is_bound := true, clients := [10, 11] }

/-- Globals holding `pubSock` under handle 1. -/
def pubState : GlobalState :=
  { initialized := true, next_handle := 2, sockets := [(1, pubSock)], last_error := [] }

/-- A registered subscriber, for concrete runs. -/
def subSock : ZMQSocket :=
  { type := "SUB".toList, address := "tcp://127.0.0.1:5556".toList,
    is_bound := false, clients := [] }

/-- Globals holding `subSock` under handle 1. -/
def subState : GlobalState :=
  { initialized := true, next_handle := 2, sockets := [(1, subSock)], last_error := [] }

/-- Send environment for the C6 witness: one pending connection (12); the
write to 11 hard-fails, the write to 12 would block, all others succeed. -/
def sendTestEnv : SendEnv :=
  { pending := [12],
    writeOutcome := fun c =>
      if c = 11 then WriteOutcome.hardError
      else if c = 12 then WriteOutcome.wouldBlock
      else WriteOutcome.ok }

/-- Witness for C6: clients [10, 11] plus pending 12; 11 is dropped, the
blocked 12 is kept, and each of 10, 11, 12 got exactly one write. -/
theorem C6_send_two_phase_witness :
    mapFind pubState.sockets 1 = some pubSock ∧
    ((zmq_send_message pubState 1 [116] [120] sendTestEnv).ret = 0 ∧
     (zmq_send_message pubState 1 [116] [120] sendTestEnv).writes =
       (pubSock.clients ++ sendTestEnv.pending).map (fun c => (c, encodeFrame [116] [120])) ∧
     (zmq_send_message pubState 1 [116] [120] sendTestEnv).state =
       { pubState with
         sockets :=
           mapUpdate pubState.sockets 1
             ({ pubSock with
                clients := (pubSock.clients ++ sendTestEnv.pending).filter
                  (fun c => decide (sendTestEnv.writeOutcome c ≠ WriteOutcome.hardError)) }) }) :=
  ⟨rfl, C6_send_two_phase pubState 1 pubSock [116] [120] sendTestEnv rfl⟩

/-! ## C8 -/

theorem ParseAddress_error_ne_nil (addr : List Char) (e : List Char)
    (h : ParseAddress addr = .error e) : e ≠ [] := by
  unfold ParseAddress at h
  split at h
  · injection h with he; rw [← he]; decide
  · split at h
    · injection h with he; rw [← he]; decide
    · split at h
      · injection h with he; rw [← he]; decide
      · exact Except.noConfusion h

theorem take_255_ne_nil (e : List Char) (h : e ≠ []) : e.take 255 ≠ [] := by
  cases e with
  | nil => exact absurd rfl h
  | cons c rest => simp [List.take]

/-- C8: when the address parser rejects the address, `zmq_create_publisher`
returns failure and the process-wide last-error text is non-empty
afterwards (either the parser's message or, if the implicit `WSAStartup`
failed first, that message). -/
theorem C8_create_publisher_bad_address (st : GlobalState) (addr : List Char)
    (env : CreateEnv) (e : List Char) (hp : ParseAddress addr = .error e) :
    (zmq_create_publisher st addr env).1 = -1 ∧
    (zmq_create_publisher st addr env).2.last_error ≠ [] := by
  have hbody : ∀ st1 : GlobalState,
      createPublisherBody st1 addr env = (-1, setLastErr st1 e) := by
    intro st1
    unfold createPublisherBody
    rw [hp]
  have hne : e.take 255 ≠ [] := take_255_ne_nil e (ParseAddress_error_ne_nil addr e hp)
  unfold zmq_create_publisher zmq_init
  by_cases hi : st.initialized
  · simp only [hi, if_true, hbody]
    exact ⟨rfl, hne⟩
  · cases hw : env.wsaOk
    · simp only [hi, hw, if_false, Bool.false_eq_true, ite_false]
      refine ⟨rfl, ?_⟩
      show ("WSAStartup failed".toList.take 255 : List Char) ≠ []
      decide
    · simp only [hi, hw, if_false, if_true, hbody]
      exact ⟨rfl, hne⟩

/-- Environment in which every external winsock step succeeds. -/
def okEnv : CreateEnv :=
  { wsaOk := true, socketOk := true, addrOk := true,
    bindOk := true, listenOk := true, connectOk := true }

/-- Witness for C8 at the spec's example address `"invalid://address"`. -/
theorem C8_create_publisher_bad_address_witness :
    ParseAddress "invalid://address".toList =
      .error "Invalid address format (must be tcp://...)".toList ∧
    ((zmq_create_publisher initialState "invalid://address".toList okEnv).1 = -1 ∧
     (zmq_create_publisher initialState "invalid://address".toList okEnv).2.last_error ≠ []) :=
  ⟨rfl, C8_create_publisher_bad_address initialState "invalid://address".toList okEnv
    "Invalid address format (must be tcp://...)".toList rfl⟩

/-! ## C9 -/

/-- C9: on a registered handle, `receive` rejects a non-subscriber socket
immediately — the result is a fixed failure (`-1`, no message, only the
last-error text set) that does not depend on the select/recv environment
at all, so no wait and no read happens; `send`, by contrast, performs no
type check: it returns success on any registered handle whatever the
socket's type is. -/
theorem C9_recv_type_check_send_none (st : GlobalState) (h : Int) (sock : ZMQSocket)
    (env : RecvEnv) (topic payload : List Nat) (senv : SendEnv)
    (hreg : mapFind st.sockets h = some sock) :
    (sock.type ≠ "SUB".toList →
      zmq_recv_message st h env =
        ⟨-1, none, setLastErr st "Not a subscriber socket".toList⟩) ∧
    (zmq_send_message st h topic payload senv).ret = 0 := by
  constructor
  · intro hty
    unfold zmq_recv_message
    rw [hreg]
    simp only [hty, if_neg, ite_true, if_true]
    rw [if_pos hty]
  · unfold zmq_send_message
    rw [hreg]

/-- Witness for C9: receive on the publisher handle fails with the
type-check error for two different environments, while send on the same
handle succeeds. -/
theorem C9_recv_type_check_send_none_witness :
    mapFind pubState.sockets 1 = some pubSock ∧
    pubSock.type ≠ "SUB".toList ∧
    zmq_recv_message pubState 1 ⟨0, some []⟩ =
      ⟨-1, none, setLastErr pubState "Not a subscriber socket".toList⟩ ∧
    zmq_recv_message pubState 1 ⟨1, some [65, 0, 66]⟩ =
      ⟨-1, none, setLastErr pubState "Not a subscriber socket".toList⟩ ∧
    (zmq_send_message pubState 1 [116] [120] sendTestEnv).ret = 0 :=
  ⟨rfl, by decide,
    (C9_recv_type_check_send_none pubState 1 pubSock ⟨0, some []⟩ [116] [120]
      sendTestEnv rfl).1 (by decide),
    (C9_recv_type_check_send_none pubState 1 pubSock ⟨1, some [65, 0, 66]⟩ [116] [120]
      sendTestEnv rfl).1 (by decide),
    (C9_recv_type_check_send_none pubState 1 pubSock ⟨0, some []⟩ [116] [120]
      sendTestEnv rfl).2⟩

/-! ## C10 -/

/-- C10: `createPublisher` and `createSubscriber` on an uninitialized
process implicitly initialize first: when the implicit `WSAStartup`
succeeds they behave exactly as on an already-initialized process, and
they fail only when that implicit initialization itself fails (there is
no distinct NotInitialized failure). -/
theorem C10_implicit_initialization (st : GlobalState) (addr : List Char)
    (env : CreateEnv) (hi : st.initialized = false) :
    (env.wsaOk = true →
      zmq_create_publisher st addr env =
        zmq_create_publisher { st with initialized := true } addr env ∧
      zmq_create_subscriber st addr env =
        zmq_create_subscriber { st with initialized := true } addr env) ∧
    (env.wsaOk = false →
      zmq_create_publisher st addr env =
        (-1, setLastErr st "WSAStartup failed".toList) ∧
      zmq_create_subscriber st addr env =
        (-1, setLastErr st "WSAStartup failed".toList)) := by
  constructor
  · intro hw
    constructor
    · unfold zmq_create_publisher zmq_init
      simp only [hi, hw, if_false, if_true, Bool.false_eq_true, ite_false, ite_true]
    · unfold zmq_create_subscriber zmq_init
      simp only [hi, hw, if_false, if_true, Bool.false_eq_true, ite_false, ite_true]
  · intro hw
    constructor
    · unfold zmq_create_publisher zmq_init
      simp only [hi, hw, if_false, Bool.false_eq_true, ite_false]
      rfl
    · unfold zmq_create_subscriber zmq_init
      simp only [hi, hw, if_false, Bool.false_eq_true, ite_false]
      rfl

/-- Witness for C10 on the fresh state with an all-success environment. -/
theorem C10_implicit_initialization_witness :
    initialState.initialized = false ∧ okEnv.wsaOk = true ∧
    (zmq_create_publisher initialState "tcp://*:5556".toList okEnv =
       zmq_create_publisher { initialState with initialized := true }
         "tcp://*:5556".toList okEnv ∧
     zmq_create_subscriber initialState "tcp://*:5556".toList okEnv =
       zmq_create_subscriber { initialState with initialized := true }
         "tcp://*:5556".toList okEnv) :=
  ⟨rfl, rfl,
    (C10_implicit_initialization initialState "tcp://*:5556".toList okEnv rfl).1 rfl⟩

/-! ## C3 -/

/-- C3 counterexample: on a registered subscriber handle, a timeout
(`select` returned 0), a malformed frame (bytes `[65, 66]`, no separator),
a zero-length read and a failed read all produce the identical observable
outcome (return `-1`, no message, globals untouched), so the caller cannot
distinguish Timeout from MalformedFrame or ConnectionClosed. -/
theorem C3_counterexample :
    zmq_recv_message subState 1 ⟨0, some [65, 0, 66]⟩ =
      zmq_recv_message subState 1 ⟨1, some [65, 66]⟩ ∧
    zmq_recv_message subState 1 ⟨0, some [65, 0, 66]⟩ =
      zmq_recv_message subState 1 ⟨1, some []⟩ ∧
    zmq_recv_message subState 1 ⟨0, some [65, 0, 66]⟩ =
      zmq_recv_message subState 1 ⟨1, none⟩ ∧
    (zmq_recv_message subState 1 ⟨0, some [65, 0, 66]⟩).ret = -1 := by
  refine ⟨?_, ?_, ?_, ?_⟩ <;> rfl

/-- C3 (amended): a `receive` on a registered subscriber handle during
which no data becomes readable within the timeout returns the failure
code `-1` with no message and the globals unchanged — exactly the same
observable outcome as a failed or zero-length read (ConnectionClosed) and
as a read with no separator byte (MalformedFrame); Timeout is
distinguishable from success but not from those failures. -/
theorem C3_recv_timeout_indistinguishable (st : GlobalState) (h : Int)
    (sock : ZMQSocket) (env : RecvEnv) (hreg : mapFind st.sockets h = some sock)
    (hsub : sock.type = "SUB".toList) :
    (env.selectResult ≤ 0 → zmq_recv_message st h env = ⟨-1, none, st⟩) ∧
    (0 < env.selectResult → env.recvOutcome = none →
      zmq_recv_message st h env = ⟨-1, none, st⟩) ∧
    (0 < env.selectResult → env.recvOutcome = some [] →
      zmq_recv_message st h env = ⟨-1, none, st⟩) ∧
    (∀ bs, 0 < env.selectResult → env.recvOutcome = some bs →
      decodeFrame (bs.take 4096) = none →
      zmq_recv_message st h env = ⟨-1, none, st⟩) := by
  refine ⟨?_, ?_, ?_, ?_⟩
  · intro hsel
    simp [zmq_recv_message, hreg, hsub, hsel]
  · intro hsel hout
    simp [zmq_recv_message, hreg, hsub, hout, not_le.mpr hsel]
  · intro hsel hout
    simp [zmq_recv_message, hreg, hsub, hout, not_le.mpr hsel]
  · intro bs hsel hout hdec
    cases bs with
    | nil => simp [zmq_recv_message, hreg, hsub, hout, not_le.mpr hsel]
    | cons b rest =>
      simp at hdec
      simp [zmq_recv_message, hreg, hsub, hout, hdec, not_le.mpr hsel]

/-- Witness for C3 (amended) on `subState` with a timed-out select. -/
theorem C3_recv_timeout_indistinguishable_witness :
    mapFind subState.sockets 1 = some subSock ∧
    subSock.type = "SUB".toList ∧
    ((0 : Int) ≤ 0 → True) ∧
    zmq_recv_message subState 1 ⟨0, some [65, 0, 66]⟩ = ⟨-1, none, subState⟩ :=
  ⟨rfl, rfl, fun _ => trivial,
    (C3_recv_timeout_indistinguishable subState 1 subSock ⟨0, some [65, 0, 66]⟩
      rfl rfl).1 (by decide)⟩

/-! ## C5 -/

theorem zmq_init_next (st : GlobalState) (b : Bool) :
    (zmq_init st b).2.next_handle = st.next_handle := by
  unfold zmq_init
  split
  · rfl
  · split <;> rfl

theorem zmq_close_next (st : GlobalState) (h : Int) :
    (zmq_close st h).2.next_handle = st.next_handle := by
  unfold zmq_close
  split <;> rfl

theorem zmq_term_next (st : GlobalState) :
    (zmq_term st).next_handle = st.next_handle := by
  unfold zmq_term
  split <;> rfl

theorem zmq_send_next (st : GlobalState) (h : Int) (topic payload : List Nat)
    (env : SendEnv) :
    (zmq_send_message st h topic payload env).state.next_handle = st.next_handle := by
  unfold zmq_send_message
  split <;> rfl

theorem zmq_recv_next (st : GlobalState) (h : Int) (env : RecvEnv) :
    (zmq_recv_message st h env).state.next_handle = st.next_handle := by
  unfold zmq_recv_message
  repeat' split
  all_goals rfl

theorem createPublisherBody_cases (st : GlobalState) (addr : List Char) (env : CreateEnv) :
    ((createPublisherBody st addr env).1 = -1 ∧
      (createPublisherBody st addr env).2.next_handle = st.next_handle) ∨
    ((createPublisherBody st addr env).1 = st.next_handle ∧
      (createPublisherBody st addr env).2.next_handle = st.next_handle + 1) := by
  unfold createPublisherBody
  split
  · exact Or.inl ⟨rfl, rfl⟩
  · split_ifs <;> first
      | exact Or.inl ⟨rfl, rfl⟩
      | exact Or.inr ⟨rfl, rfl⟩

theorem createSubscriberBody_cases (st : GlobalState) (addr : List Char) (env : CreateEnv) :
    ((createSubscriberBody st addr env).1 = -1 ∧
      (createSubscriberBody st addr env).2.next_handle = st.next_handle) ∨
    ((createSubscriberBody st addr env).1 = st.next_handle ∧
      (createSubscriberBody st addr env).2.next_handle = st.next_handle + 1) := by
  unfold createSubscriberBody
  split
  · exact Or.inl ⟨rfl, rfl⟩
  · split_ifs <;> first
      | exact Or.inl ⟨rfl, rfl⟩
      | exact Or.inr ⟨rfl, rfl⟩

theorem initStep_cases (st : GlobalState) (w : Bool) :
    (if st.initialized then ((0 : Int), st) else zmq_init st w) = (0, st) ∨
    (if st.initialized then ((0 : Int), st) else zmq_init st w) =
      (0, { st with initialized := true }) ∨
    (if st.initialized then ((0 : Int), st) else zmq_init st w) =
      (-1, setLastErr st "WSAStartup failed".toList) := by
  by_cases hi : st.initialized
  · left; simp [hi]
  · unfold zmq_init
    cases w
    · right; right; simp [hi]
    · right; left; simp [hi]

theorem zmq_create_publisher_cases (st : GlobalState) (addr : List Char) (env : CreateEnv) :
    ((zmq_create_publisher st addr env).1 = -1 ∧
      (zmq_create_publisher st addr env).2.next_handle = st.next_handle) ∨
    ((zmq_create_publisher st addr env).1 = st.next_handle ∧
      (zmq_create_publisher st addr env).2.next_handle = st.next_handle + 1) := by
  rcases initStep_cases st env.wsaOk with h | h | h
  · simp only [zmq_create_publisher, h, ne_eq, not_true_eq_false, ite_false,
      not_false_eq_true, ite_true]
    exact createPublisherBody_cases st addr env
  · simp only [zmq_create_publisher, h]
    have : ¬ ((0 : Int) ≠ 0) := by decide
    rw [if_neg this]
    exact createPublisherBody_cases { st with initialized := true } addr env
  · simp only [zmq_create_publisher, h]
    have : (-1 : Int) ≠ 0 := by decide
    rw [if_pos this]
    exact Or.inl ⟨rfl, rfl⟩

theorem zmq_create_subscriber_cases (st : GlobalState) (addr : List Char) (env : CreateEnv) :
    ((zmq_create_subscriber st addr env).1 = -1 ∧
      (zmq_create_subscriber st addr env).2.next_handle = st.next_handle) ∨
    ((zmq_create_subscriber st addr env).1 = st.next_handle ∧
      (zmq_create_subscriber st addr env).2.next_handle = st.next_handle + 1) := by
  rcases initStep_cases st env.wsaOk with h | h | h
  · simp only [zmq_create_subscriber, h]
    have : ¬ ((0 : Int) ≠ 0) := by decide
    rw [if_neg this]
    exact createSubscriberBody_cases st addr env
  · simp only [zmq_create_subscriber, h]
    have : ¬ ((0 : Int) ≠ 0) := by decide
    rw [if_neg this]
    exact createSubscriberBody_cases { st with initialized := true } addr env
  · simp only [zmq_create_subscriber, h]
    have : (-1 : Int) ≠ 0 := by decide
    rw [if_pos this]
    exact Or.inl ⟨rfl, rfl⟩

theorem step_next_none (st : GlobalState) (op : Op) (st' : GlobalState)
    (hpos : 1 ≤ st.next_handle) (h : step st op = (st', none)) :
    st'.next_handle = st.next_handle := by
  cases op with
  | createPub addr env =>
    rcases zmq_create_publisher_cases st addr env with ⟨h1, h2⟩ | ⟨h1, h2⟩
    · simp only [step] at h
      rw [if_pos h1] at h
      injection h with ha hb
      rw [← ha]
      exact h2
    · have hne : (zmq_create_publisher st addr env).1 ≠ -1 := by
        rw [h1]; intro hc; omega
      simp only [step] at h
      rw [if_neg hne] at h
      injection h with ha hb
      exact Option.noConfusion hb
  | createSub addr env =>
    rcases zmq_create_subscriber_cases st addr env with ⟨h1, h2⟩ | ⟨h1, h2⟩
    · simp only [step] at h
      rw [if_pos h1] at h
      injection h with ha hb
      rw [← ha]
      exact h2
    · have hne : (zmq_create_subscriber st addr env).1 ≠ -1 := by
        rw [h1]; intro hc; omega
      simp only [step] at h
      rw [if_neg hne] at h
      injection h with ha hb
      exact Option.noConfusion hb
  | closeOp hh =>
    simp only [step] at h
    injection h with ha hb
    rw [← ha]
    exact zmq_close_next st hh
  | termOp =>
    simp only [step] at h
    injection h with ha hb
    rw [← ha]
    exact zmq_term_next st
  | initOp b =>
    simp only [step] at h
    injection h with ha hb
    rw [← ha]
    exact zmq_init_next st b
  | sendOp hh t p env =>
    simp only [step] at h
    injection h with ha hb
    rw [← ha]
    exact zmq_send_next st hh t p env
  | recvOp hh env =>
    simp only [step] at h
    injection h with ha hb
    rw [← ha]
    exact zmq_recv_next st hh env

theorem step_next_some (st : GlobalState) (op : Op) (st' : GlobalState) (hh : Int)
    (hpos : 1 ≤ st.next_handle) (h : step st op = (st', some hh)) :
    hh = st.next_handle ∧ st'.next_handle = st.next_handle + 1 := by
  cases op with
  | createPub addr env =>
    rcases zmq_create_publisher_cases st addr env with ⟨h1, h2⟩ | ⟨h1, h2⟩
    · simp only [step] at h
      rw [if_pos h1] at h
      injection h with ha hb
      exact Option.noConfusion hb
    · have hne : (zmq_create_publisher st addr env).1 ≠ -1 := by
        rw [h1]; intro hc; omega
      simp only [step] at h
      rw [if_neg hne] at h
      injection h with ha hb
      injection hb with hb
      rw [← ha, ← hb]
      exact ⟨h1, h2⟩
  | createSub addr env =>
    rcases zmq_create_subscriber_cases st addr env with ⟨h1, h2⟩ | ⟨h1, h2⟩
    · simp only [step] at h
      rw [if_pos h1] at h
      injection h with ha hb
      exact Option.noConfusion hb
    · have hne : (zmq_create_subscriber st addr env).1 ≠ -1 := by
        rw [h1]; intro hc; omega
      simp only [step] at h
      rw [if_neg hne] at h
      injection h with ha hb
      injection hb with hb
      rw [← ha, ← hb]
      exact ⟨h1, h2⟩
  | closeOp hc =>
    simp only [step] at h
    injection h with ha hb
    exact Option.noConfusion hb
  | termOp =>
    simp only [step] at h
    injection h with ha hb
    exact Option.noConfusion hb
  | initOp b =>
    simp only [step] at h
    injection h with ha hb
    exact Option.noConfusion hb
  | sendOp hs t p env =>
    simp only [step] at h
    injection h with ha hb
    exact Option.noConfusion hb
  | recvOp hr env =>
    simp only [step] at h
    injection h with ha hb
    exact Option.noConfusion hb

theorem run_handleSeq (ops : List Op) :
    ∀ st : GlobalState, 1 ≤ st.next_handle →
      (run st ops).2 = handleSeq st.next_handle (run st ops).2.length ∧
      (run st ops).1.next_handle = st.next_handle + ((run st ops).2.length : Int) := by
  induction ops with
  | nil =>
    intro st hpos
    exact ⟨rfl, by simp [run]⟩
  | cons op ops ih =>
    intro st hpos
    rcases hstep : step st op with ⟨st1, ho⟩
    have hrun : run st (op :: ops) = ((run st1 ops).1, ho.toList ++ (run st1 ops).2) := by
      show ((run (step st op).1 ops).1,
        (step st op).2.toList ++ (run (step st op).1 ops).2) = _
      rw [hstep]
    cases ho with
    | none =>
      have hn := step_next_none st op st1 hpos hstep
      have hih := ih st1 (by rw [hn]; exact hpos)
      rw [hrun]
      simp only [Option.toList, List.nil_append]
      rw [hn] at hih
      exact hih
    | some hh =>
      obtain ⟨hh1, hn⟩ := step_next_some st op st1 hh hpos hstep
      have hih := ih st1 (by rw [hn]; omega)
      rw [hrun]
      simp only [Option.toList, List.cons_append, List.nil_append, List.length_cons]
      constructor
      · show hh :: (run st1 ops).2 = handleSeq st.next_handle ((run st1 ops).2.length + 1)
        have : handleSeq st.next_handle ((run st1 ops).2.length + 1) =
            st.next_handle :: handleSeq (st.next_handle + 1) (run st1 ops).2.length := rfl
        rw [this, hh1]
        rw [hn] at hih
        rw [← hih.1]
      · rw [hih.2, hn]
        push_cast
        ring

theorem handleSeq_mem : ∀ (k : Nat) (n x : Int), x ∈ handleSeq n k → n ≤ x := by
  intro k
  induction k with
  | zero => intro n x hx; simp [handleSeq] at hx
  | succ k ih =>
    intro n x hx
    rcases List.mem_cons.mp hx with rfl | hx
    · exact le_refl x
    · have := ih (n + 1) x hx
      omega

theorem handleSeq_nodup : ∀ (k : Nat) (n : Int), (handleSeq n k).Nodup := by
  intro k
  induction k with
  | zero => intro n; exact List.nodup_nil
  | succ k ih =>
    intro n
    refine List.nodup_cons.mpr ⟨?_, ih (n + 1)⟩
    intro hmem
    have := handleSeq_mem k (n + 1) n hmem
    omega

/-- C5: over every sequence of create/close/terminate/re-initialize (and
send/receive) operations from the freshly loaded state, the handles
returned by successful creations are exactly the consecutive integers
starting at 1, in order — hence positive, monotonically assigned, and
never reused, including across terminate and re-initialize. -/
theorem C5_handle_assignment (ops : List Op) :
    (run initialState ops).2 = handleSeq 1 (run initialState ops).2.length ∧
    (run initialState ops).2.Nodup ∧
    ∀ x ∈ (run initialState ops).2, 1 ≤ x := by
  have h := run_handleSeq ops initialState (by decide)
  refine ⟨h.1, ?_, ?_⟩
  · rw [h.1]
    exact handleSeq_nodup _ _
  · intro x hx
    rw [h.1] at hx
    exact handleSeq_mem _ _ x hx

-- Sanity check: a create, terminate, re-initialize, create trace hands out
-- handles 1 and 2.
example :
    (run initialState
      [Op.createPub "tcp://*:5556".toList okEnv, Op.termOp, Op.initOp true,
       Op.createSub "tcp://127.0.0.1:5556".toList okEnv]).2 = [1, 2] := by rfl




